import Mathlib

/-!
Verification of the plant-genetics module (`src/plant-genetics.js`).

The JavaScript code is shallowly embedded: JS numbers are modelled as exact
rationals (`ℚ`), JS strings as `String`, the dynamic values stored in a
genotype object as `JSVal` (`undefined`, string, or number), and JS objects
used as ordered string-keyed maps as association lists with the JS insertion
semantics (`objGet`/`objSet`).  `Math.random()` draws are modelled by an
explicit stream `r : ℕ → ℚ` together with a running index.
-/

namespace PlantGenetics

/-- A JavaScript runtime value as stored in the genetics data structures:
`undefined`, a string, or a (finite) number modelled as an exact rational. -/
inductive JSVal
  | undef
  | str (s : String)
  | num (q : ℚ)
  deriving DecidableEq, Repr

/-- JS truthiness for the values that occur in the module (`undefined`, `""`
and `0` are falsy). -/
def jsTruthy : JSVal → Bool
  | .undef => false
  | .str s => s ≠ ""
  | .num q => q ≠ 0

/-- Lookup in a JS object modelled as an association list (first match). -/
def objGet {α : Type} (m : List (String × α)) (k : String) : Option α :=
  match m with
  | [] => none
  | (k', v) :: rest => if k' = k then some v else objGet rest k

/-- Property assignment on a JS object: update in place if the key exists,
otherwise append (JS string-keyed insertion order). -/
def objSet {α : Type} (m : List (String × α)) (k : String) (v : α) :
    List (String × α) :=
  match m with
  | [] => [(k, v)]
  | (k', v') :: rest =>
    if k' = k then (k, v) :: rest else (k', v') :: objSet rest k v

/-- Lookup in a JS object keyed by numbers (the quantitative value maps). -/
def numGet {α : Type} (m : List (ℚ × α)) (k : ℚ) : Option α :=
  match m with
  | [] => none
  | (k', v) :: rest => if k' = k then some v else numGet rest k

/-- `String.prototype.split` with a single-character separator, on `List Char`. -/
def splitChar (sep : Char) : List Char → List (List Char)
  | [] => [[]]
  | c :: cs =>
    match splitChar sep cs with
    | [] => [[c]]
    | p :: ps => if c = sep then [] :: p :: ps else (c :: p) :: ps

/-- `Array.prototype.join` with a single-character separator, on `List Char`. -/
def joinChar (sep : Char) : List (List Char) → List Char
  | [] => []
  | [p] => p
  | p :: ps => p ++ sep :: joinChar sep ps

/-- `s.split(sep)` for a one-character separator string. -/
def jsSplit (sep : Char) (s : String) : List String :=
  (splitChar sep s.data).map String.mk

/-- `parts.join(sep)` for a one-character separator string. -/
def joinStrings (sep : Char) (parts : List String) : String :=
  String.mk (joinChar sep (parts.map String.data))

/-- Skip the leading whitespace that `parseInt` ignores. -/
def skipWs : List Char → List Char
  | c :: cs => if c = ' ' ∨ c = '\t' ∨ c = '\n' ∨ c = '\r' then skipWs cs else c :: cs
  | [] => []

/-- Maximal leading run of decimal digits. -/
def takeDigits : List Char → List Char
  | c :: cs => if '0' ≤ c ∧ c ≤ '9' then c :: takeDigits cs else []
  | [] => []

/-- Numeric value of a digit string. -/
def digitsToNat (cs : List Char) : ℕ :=
  cs.foldl (fun a c => a * 10 + (c.toNat - '0'.toNat)) 0

/-- `parseInt(s, 10)`: optional sign then a maximal digit run; `none` models
`NaN` (no digits at all). -/
def jsParseIntStr (s : String) : Option ℤ :=
  let cs := skipWs s.data
  match cs with
  | '-' :: cs' =>
    let ds := takeDigits cs'
    if ds = [] then none else some (-(digitsToNat ds : ℤ))
  | '+' :: cs' =>
    let ds := takeDigits cs'
    if ds = [] then none else some (digitsToNat ds)
  | _ =>
    let ds := takeDigits cs
    if ds = [] then none else some (digitsToNat ds)

/-- Floor of a rational, computed directly on numerator and denominator. -/
def ratFloor (q : ℚ) : ℤ := Int.fdiv q.num q.den

/-- Truncation toward zero, as `parseInt` applied to a plain decimal number. -/
def ratTrunc (q : ℚ) : ℤ := if 0 ≤ q then ratFloor q else -(ratFloor (-q))

/-- `Math.round`: round half toward positive infinity. -/
def jsRound (q : ℚ) : ℚ := (ratFloor (q + 1/2) : ℚ)

/-- `Math.floor` on a rational, as a rational. -/
def jsFloor (q : ℚ) : ℚ := (ratFloor q : ℚ)

/-- `parseInt(v, 10)` on a runtime value; numbers go through their decimal
string representation, which for the plain decimals occurring in this module
is truncation toward zero. -/
def jsParseIntVal : JSVal → Option ℤ
  | .undef => none
  | .str s => jsParseIntStr s
  | .num q => some (ratTrunc q)

/-- `x || d` for a possibly-undefined/NaN number `x` (`none`) with falsy `0`. -/
def orElseNum (x : Option ℚ) (d : ℚ) : ℚ :=
  match x with
  | some v => if v = 0 then d else v
  | none => d

/-- `x || d` for a possibly-undefined string `x` with falsy `""`. -/
def orElseStr (x : Option String) (d : String) : String :=
  match x with
  | some v => if v = "" then d else v
  | none => d

/-- `v[i]` character access; non-strings and out-of-range indices give
`undefined`. -/
def jsCharAt (v : JSVal) (i : ℕ) : Option Char :=
  match v with
  | .str s => s.data.get? i
  | _ => none

/-- The string used as a property key when indexing with a character that may
be `undefined` (JS stringifies `undefined` to `"undefined"`). -/
def optCharKey : Option Char → String
  | some c => String.mk [c]
  | none => "undefined"

/-- String concatenation with a possibly-undefined character
(`"a" + undefined === "aundefined"`). -/
def optCharConcat : Option Char → String
  | some c => String.mk [c]
  | none => "undefined"

/-- Decimal string representation of the rationals the module ever
stringifies: integers, and odd multiples of one half (e.g. `0.5`, `1.5`). -/
def ratToString (q : ℚ) : String :=
  if q.den = 1 then toString q.num
  else if q.den = 2 then
    (if q < 0 then "-" else "") ++ toString (q.num.natAbs / 2) ++ ".5"
  else toString q.num ++ "/" ++ toString q.den

/-- `${v}` template-string conversion. -/
def jsValToString : JSVal → String
  | .undef => "undefined"
  | .str s => s
  | .num q => ratToString q

/-- JS loose equality (`==`) restricted to the value shapes of this module:
a string and a number compare equal when the string's numeric value is the
number. -/
def strToNum (s : String) : Option ℚ :=
  let cs := skipWs s.data
  match cs with
  | '-' :: cs' =>
    let ds := takeDigits cs'
    if ds = [] ∨ takeDigits cs' ≠ cs' then none else some (-(digitsToNat ds : ℚ))
  | _ =>
    let ds := takeDigits cs
    if ds = [] ∨ ds ≠ cs then none else some (digitsToNat ds : ℚ)

/-- JS loose equality (`==`) for the runtime values of this module. -/
def jsLooseEq : JSVal → JSVal → Bool
  | .str a, .str b => a = b
  | .num a, .num b => a = b
  | .str a, .num b => (strToNum a).any (· = b)
  | .num a, .str b => (strToNum b).any (· = a)
  | .undef, .undef => true
  | _, _ => false

/-- An allele definition of a qualitative trait (`GENE_TRAITS.*.alleles[k]`). -/
structure AlleleDef where
  name : String
  dominance : ℚ
  value : String
  deriving DecidableEq, Repr

/-- A blend entry of a qualitative trait (`GENE_TRAITS.*.blendMap[pair]`). -/
structure BlendDef where
  name : String
  value : String
  deriving DecidableEq, Repr

/-- The `type` tag of a trait definition. -/
inductive TraitType
  | qualitative
  | quantitative
  deriving DecidableEq, Repr

/-- One bundle of gameplay-effect fields from a quantitative trait's
`valueMap`; fields absent from a given entry are `none`. -/
structure EffectDef where
  scale : Option ℚ := none
  growthModifier : Option ℚ := none
  waterModifier : Option ℚ := none
  branches : Option ℚ := none
  angle : Option ℚ := none
  daysToMature : Option ℚ := none
  coinMultiplier : Option ℚ := none
  seedChance : Option ℚ := none
  pestDamageChance : Option ℚ := none
  weatherDamageChance : Option ℚ := none
  waterPerDay : Option ℚ := none
  droughtResistance : Option ℚ := none
  deriving DecidableEq, Repr

/-- A trait definition from `GENE_TRAITS`.  Fields a JS trait object lacks
(`alleles`/`blendMap` on quantitative traits, `min`/`max`/`valueMap` on
qualitative ones) are modelled by their neutral defaults and are never read
on those paths, mirroring the source's type dispatch. -/
structure TraitDef where
  name : String
  type : TraitType
  alleles : List (String × AlleleDef) := []
  blendMap : List (String × BlendDef) := []
  min : ℚ := 0
  max : ℚ := 0
  defaultValue : JSVal
  valueMap : List (ℚ × EffectDef) := []
  deriving DecidableEq, Repr

/-- `GENE_TRAITS.FC` (Flower Color). -/
def FCdef : TraitDef where
  name := "Flower Color"
  type := .qualitative
  alleles :=
    [("R", ⟨"Red", 2, "#FF5555"⟩),
     ("B", ⟨"Blue", 2, "#5555FF"⟩),
     ("Y", ⟨"Yellow", 2, "#FFFF55"⟩),
     ("W", ⟨"White", 1, "#FFFFFF"⟩),
     ("P", ⟨"Pink", 2, "#FF55FF"⟩)]
  blendMap :=
    [("RB", ⟨"Purple", "#9955FF"⟩),
     ("RY", ⟨"Orange", "#FF9955"⟩),
     ("BY", ⟨"Green", "#55FF55"⟩),
     ("RW", ⟨"Light Red", "#FF9999"⟩),
     ("BW", ⟨"Light Blue", "#9999FF"⟩),
     ("YW", ⟨"Light Yellow", "#FFFF99"⟩),
     ("RP", ⟨"Deep Pink", "#FF5599"⟩),
     ("BP", ⟨"Purple", "#9955FF"⟩),
     ("YP", ⟨"Peach", "#FFAA77"⟩)]
  defaultValue := .str "WW"

/-- `GENE_TRAITS.SZ` (Size). -/
def SZdef : TraitDef where
  name := "Size"
  type := .quantitative
  min := 1
  max := 5
  defaultValue := .num 3
  valueMap :=
    [(1, { scale := some 0.7, growthModifier := some 1.2, waterModifier := some 0.8 }),
     (2, { scale := some 0.85, growthModifier := some 1.1, waterModifier := some 0.9 }),
     (3, { scale := some 1.0, growthModifier := some 1.0, waterModifier := some 1.0 }),
     (4, { scale := some 1.15, growthModifier := some 0.9, waterModifier := some 1.1 }),
     (5, { scale := some 1.3, growthModifier := some 0.8, waterModifier := some 1.2 })]

/-- `GENE_TRAITS.LS` (Leaf Shape). -/
def LSdef : TraitDef where
  name := "Leaf Shape"
  type := .qualitative
  alleles :=
    [("1", ⟨"Oval", 2, "oval"⟩),
     ("2", ⟨"Heart", 2, "heart"⟩),
     ("3", ⟨"Pointed", 2, "pointed"⟩)]
  defaultValue := .str "11"

/-- `GENE_TRAITS.BP` (Branching Pattern). -/
def BPdef : TraitDef where
  name := "Branching Pattern"
  type := .quantitative
  min := 1
  max := 3
  defaultValue := .num 1
  valueMap :=
    [(1, { branches := some 1, angle := some 0 }),
     (2, { branches := some 2, angle := some 30 }),
     (3, { branches := some 3, angle := some 25 })]

/-- `GENE_TRAITS.GR` (Growth Rate). -/
def GRdef : TraitDef where
  name := "Growth Rate"
  type := .quantitative
  min := 0.5
  max := 1.5
  defaultValue := .num 1.0
  valueMap :=
    [(0.5, { daysToMature := some 15 }),
     (0.7, { daysToMature := some 12 }),
     (1.0, { daysToMature := some 10 }),
     (1.2, { daysToMature := some 8 }),
     (1.5, { daysToMature := some 6 })]

/-- `GENE_TRAITS.YD` (Yield). -/
def YDdef : TraitDef where
  name := "Yield"
  type := .quantitative
  min := 1
  max := 5
  defaultValue := .num 3
  valueMap :=
    [(1, { coinMultiplier := some 0.8, seedChance := some 0.3 }),
     (2, { coinMultiplier := some 0.9, seedChance := some 0.4 }),
     (3, { coinMultiplier := some 1.0, seedChance := some 0.5 }),
     (4, { coinMultiplier := some 1.2, seedChance := some 0.6 }),
     (5, { coinMultiplier := some 1.5, seedChance := some 0.7 })]

/-- `GENE_TRAITS.RS` (Resistance). -/
def RSdef : TraitDef where
  name := "Resistance"
  type := .quantitative
  min := 1
  max := 3
  defaultValue := .num 2
  valueMap :=
    [(1, { pestDamageChance := some 0.5, weatherDamageChance := some 0.4 }),
     (2, { pestDamageChance := some 0.2, weatherDamageChance := some 0.2 }),
     (3, { pestDamageChance := some 0.05, weatherDamageChance := some 0.05 })]

/-- `GENE_TRAITS.WN` (Water Needs). -/
def WNdef : TraitDef where
  name := "Water Needs"
  type := .quantitative
  min := 1
  max := 3
  defaultValue := .num 2
  valueMap :=
    [(1, { waterPerDay := some 10, droughtResistance := some 0.7 }),
     (2, { waterPerDay := some 20, droughtResistance := some 0.5 }),
     (3, { waterPerDay := some 30, droughtResistance := some 0.3 })]

/-- The trait registry `GENE_TRAITS`, in its JS property order. -/
def GENE_TRAITS : List (String × TraitDef) :=
  [("FC", FCdef), ("SZ", SZdef), ("LS", LSdef), ("BP", BPdef),
   ("GR", GRdef), ("YD", YDdef), ("RS", RSdef), ("WN", WNdef)]

/-- A genotype: the `genes` object, an ordered map from gene key to the
stored runtime value. -/
abbrev Genotype := List (String × JSVal)

/-- Processing of one `KEY:VALUE` segment of `parseGeneSequence`: an unknown
key is assigned `GENE_TRAITS[key]?.defaultValue || "00"`, which for an
unregistered key is the string `"00"`; a registered key is assigned the raw
segment value (possibly `undefined` when the segment has no `:`). -/
def parseSegment (genes : Genotype) (segment : String) : Genotype :=
  let parts := jsSplit ':' segment
  let geneKey := parts.headD ""
  let value : JSVal :=
    match parts.get? 1 with
    | some v => .str v
    | none => .undef
  match objGet GENE_TRAITS geneKey with
  | none => objSet genes geneKey (.str "00")
  | some _ => objSet genes geneKey value

/-- One step of the fill loop of `parseGeneSequence`: a registered trait key
whose current value is falsy (absent, `undefined` or `""`) gets the registry
default. -/
def fillStep (m : Genotype) (kt : String × TraitDef) : Genotype :=
  match objGet m kt.1 with
  | some v => if jsTruthy v then m else objSet m kt.1 kt.2.defaultValue
  | none => objSet m kt.1 kt.2.defaultValue

/-- The fill loop of `parseGeneSequence` over every registered trait. -/
def fillDefaults (genes : Genotype) : Genotype :=
  GENE_TRAITS.foldl fillStep genes

/-- `Plant.parseGeneSequence`. -/
def parseGeneSequence (sequence : String) : Genotype :=
  fillDefaults ((jsSplit '-' sequence).foldl parseSegment [])

/-- `Plant.generateDefaultGeneSequence`. -/
def generateDefaultGeneSequence : String :=
  joinStrings '-'
    (GENE_TRAITS.map fun kt => kt.1 ++ ":" ++ jsValToString kt.2.defaultValue)

/-- `Plant.toGeneSequence` on a genes object. -/
def toGeneSequence (genes : Genotype) : String :=
  joinStrings '-' (genes.map fun kv => kv.1 ++ ":" ++ jsValToString kv.2)

/-- A resolved qualitative phenotype entry: either an allele record from the
registry or a blend record. -/
inductive QualResult
  | allele (a : AlleleDef)
  | blend (b : BlendDef)
  deriving DecidableEq, Repr

/-- A resolved quantitative phenotype entry: the clamped numeric `value`
with the spread of the matching `valueMap` bundle, plus the derived
`effective*`/`daysToMature` fields written by `calculateTraitInteractions`. -/
structure QuantPhen where
  value : ℚ
  scale : Option ℚ := none
  growthModifier : Option ℚ := none
  waterModifier : Option ℚ := none
  branches : Option ℚ := none
  angle : Option ℚ := none
  daysToMature : Option ℚ := none
  coinMultiplier : Option ℚ := none
  seedChance : Option ℚ := none
  pestDamageChance : Option ℚ := none
  weatherDamageChance : Option ℚ := none
  waterPerDay : Option ℚ := none
  droughtResistance : Option ℚ := none
  effectiveValue : Option ℚ := none
  effectiveWaterPerDay : Option ℚ := none
  effectivePestDamageChance : Option ℚ := none
  effectiveCoinMultiplier : Option ℚ := none
  deriving DecidableEq, Repr

/-- `{ value, ...gene.valueMap[value] }`: spreading `undefined` adds no
fields. -/
def QuantPhen.ofSpread (v : ℚ) : Option EffectDef → QuantPhen
  | none => { value := v }
  | some e =>
    { value := v
      scale := e.scale
      growthModifier := e.growthModifier
      waterModifier := e.waterModifier
      branches := e.branches
      angle := e.angle
      daysToMature := e.daysToMature
      coinMultiplier := e.coinMultiplier
      seedChance := e.seedChance
      pestDamageChance := e.pestDamageChance
      weatherDamageChance := e.weatherDamageChance
      waterPerDay := e.waterPerDay
      droughtResistance := e.droughtResistance }

/-- The phenotype object.  `calculatePhenotype` only ever writes the eight
registered keys (unregistered genes are skipped), each with a fixed shape, so
the object is modelled as a record of optional entries; `none` covers both an
absent key and one assigned `undefined`. -/
structure Phenotype where
  FC : Option QualResult := none
  LS : Option QualResult := none
  SZ : Option QuantPhen := none
  BP : Option QuantPhen := none
  GR : Option QuantPhen := none
  YD : Option QuantPhen := none
  RS : Option QuantPhen := none
  WN : Option QuantPhen := none
  deriving DecidableEq, Repr

/-- `gene.alleles[Object.keys(gene.alleles)[0]]`: the first-defined allele. -/
def firstAlleleDef (t : TraitDef) : Option AlleleDef :=
  t.alleles.head?.map (·.2)

/-- `[value[0], value[1]].sort().join("")`: the default JS sort compares
string representations (plain code-point order for single characters) and
places `undefined` last; `join` renders `undefined` as the empty string. -/
def sortedPairString (a b : Option Char) : String :=
  match a, b with
  | some x, some y => if x ≤ y then String.mk [x, y] else String.mk [y, x]
  | some x, none => String.mk [x]
  | none, some y => String.mk [y]
  | none, none => ""

/-- The qualitative branch of `Plant.calculatePhenotype`. -/
def resolveQualitative (t : TraitDef) (value : JSVal) : Option QualResult :=
  let c0 := jsCharAt value 0
  let c1 := jsCharAt value 1
  if c0 = c1 then
    (objGet t.alleles (optCharKey c0)).map .allele
  else
    let sorted := sortedPairString c0 c1
    match objGet t.blendMap sorted with
    | some b => some (.blend b)
    | none =>
      match objGet t.alleles (optCharKey c0), objGet t.alleles (optCharKey c1) with
      | some a1, some a2 =>
        if a1.dominance > a2.dominance then some (.allele a1)
        else if a2.dominance > a1.dominance then some (.allele a2)
        else some (.allele a1)
      | _, _ => (firstAlleleDef t).map .allele

/-- `typeof value === 'string' && value.length === 2`. -/
def isDiploidStr : JSVal → Bool
  | .str s => s.data.length = 2
  | _ => false

/-- The numeric default of a quantitative trait (all quantitative registry
defaults are numbers). -/
def defaultNum (t : TraitDef) : ℚ :=
  match t.defaultValue with
  | .num q => q
  | _ => 0

/-- `parseInt(value[i], 10) || gene.min`: one diploid digit, where a failed
parse — and, because `0` is falsy, the digit `0` itself — falls back to the
trait's minimum. -/
def alleleNumOrMin (t : TraitDef) (c : Option Char) : ℚ :=
  orElseNum ((c.bind fun ch => jsParseIntStr (String.mk [ch])).map fun n => (n : ℚ)) t.min

/-- The numeric core of the quantitative branch of `Plant.calculatePhenotype`:
average the two diploid digits (or parse the raw value), round, and clamp to
`[min, max]`. -/
def quantResolve (t : TraitDef) (value : JSVal) : ℚ :=
  let numericValue : ℚ :=
    if isDiploidStr value then
      let allele1 := alleleNumOrMin t (jsCharAt value 0)
      let allele2 := alleleNumOrMin t (jsCharAt value 1)
      jsRound ((allele1 + allele2) / 2)
    else
      orElseNum ((jsParseIntVal value).map fun n => (n : ℚ)) (defaultNum t)
  max t.min (min t.max numericValue)

/-- The quantitative branch of `Plant.calculatePhenotype`: the clamped value
together with the spread of its `valueMap` bundle. -/
def quantPhen (t : TraitDef) (value : JSVal) : QuantPhen :=
  QuantPhen.ofSpread (quantResolve t value) (numGet t.valueMap (quantResolve t value))

/-- `phenotype[key] = r` for the two qualitative registry keys. -/
def setPhenQual (ph : Phenotype) (k : String) (r : Option QualResult) : Phenotype :=
  if k = "FC" then { ph with FC := r }
  else if k = "LS" then { ph with LS := r }
  else ph

/-- `phenotype[key] = r` for the six quantitative registry keys. -/
def setPhenQuant (ph : Phenotype) (k : String) (r : QuantPhen) : Phenotype :=
  if k = "SZ" then { ph with SZ := some r }
  else if k = "BP" then { ph with BP := some r }
  else if k = "GR" then { ph with GR := some r }
  else if k = "YD" then { ph with YD := some r }
  else if k = "RS" then { ph with RS := some r }
  else if k = "WN" then { ph with WN := some r }
  else ph

/-- One iteration of the per-gene loop of `Plant.calculatePhenotype`:
unregistered keys are skipped, registered ones dispatch on the trait type. -/
def applyGene (ph : Phenotype) (kv : String × JSVal) : Phenotype :=
  match objGet GENE_TRAITS kv.1 with
  | none => ph
  | some t =>
    match t.type with
    | .qualitative => setPhenQual ph kv.1 (resolveQualitative t kv.2)
    | .quantitative => setPhenQuant ph kv.1 (quantPhen t kv.2)

/-- `calculateTraitInteractions`, step 1: Growth Rate × Size. -/
def interactGrowthSize (ph : Phenotype) : Phenotype :=
  match ph.GR, ph.SZ with
  | some gr, some sz =>
    let sizeEffect := orElseNum sz.growthModifier 1.0
    let baseGrowthDays :=
      orElseNum ((numGet GRdef.valueMap gr.value).bind (·.daysToMature)) 10
    { ph with GR := some { gr with
        effectiveValue := some (gr.value * sizeEffect)
        daysToMature := some (jsRound (baseGrowthDays / sizeEffect)) } }
  | _, _ => ph

/-- `calculateTraitInteractions`, step 2: Water Needs × Size. -/
def interactWaterSize (ph : Phenotype) : Phenotype :=
  match ph.WN, ph.SZ with
  | some wn, some sz =>
    let sizeEffect := orElseNum sz.waterModifier 1.0
    let baseWaterNeeds := orElseNum wn.waterPerDay 20
    { ph with WN := some { wn with
        effectiveWaterPerDay := some (jsRound (baseWaterNeeds * sizeEffect)) } }
  | _, _ => ph

/-- `calculateTraitInteractions`, step 3: the growth–resistance trade-off. -/
def interactGrowthResistance (ph : Phenotype) : Phenotype :=
  match ph.GR, ph.RS with
  | some gr, some rs =>
    if gr.value > 1.2 then
      { ph with RS := some { rs with
          effectivePestDamageChance :=
            rs.pestDamageChance.map fun p => min 1.0 (p * (1 + (gr.value - 1.0) * 0.5)) } }
    else
      { ph with RS := some { rs with
          effectivePestDamageChance := rs.pestDamageChance } }
  | none, some rs =>
    { ph with RS := some { rs with
        effectivePestDamageChance := rs.pestDamageChance } }
  | _, none => ph

/-- The homozygosity count of `calculateTraitInteractions`: entries of the
genes object whose value is a 2-character string with equal characters. -/
def homozygousCount (genes : Genotype) : ℕ :=
  genes.countP fun kv =>
    match kv.2 with
    | .str s => s.data.length == 2 && s.data.get? 0 == s.data.get? 1
    | _ => false

/-- `inbreedingThreshold`. -/
def inbreedingThreshold : ℕ := 5

/-- `calculateTraitInteractions`, step 4: inbreeding depression on Yield. -/
def interactInbreeding (genes : Genotype) (ph : Phenotype) : Phenotype :=
  let c := homozygousCount genes
  if c > inbreedingThreshold then
    match ph.YD with
    | some yd =>
      let inbreedingFactor := 1.0 - (((c : ℚ) - (inbreedingThreshold : ℚ)) * 0.1)
      { ph with YD := some { yd with
          effectiveCoinMultiplier := yd.coinMultiplier.map (· * inbreedingFactor) } }
    | none => ph
  else
    match ph.YD with
    | some yd => { ph with YD := some { yd with effectiveCoinMultiplier := yd.coinMultiplier } }
    | none => ph

/-- `Plant.calculateTraitInteractions`, the four steps in source order. -/
def calculateTraitInteractions (genes : Genotype) (ph : Phenotype) : Phenotype :=
  interactInbreeding genes (interactGrowthResistance (interactWaterSize (interactGrowthSize ph)))

/-- `Plant.calculatePhenotype`. -/
def calculatePhenotype (genes : Genotype) : Phenotype :=
  calculateTraitInteractions genes (genes.foldl applyGene {})

/-- The mutable state of a `Plant` instance. -/
structure PlantState where
  genes : Genotype
  phenotype : Phenotype
  progress : ℚ
  health : ℚ
  ready : Bool
  watered : Bool
  deriving DecidableEq, Repr

/-- The `Plant` constructor: parse the given sequence (or the default one when
the argument is null/empty) and resolve the phenotype. -/
def Plant.create (geneSequence : Option String) : PlantState :=
  let seq :=
    match geneSequence with
    | some s => if s = "" then generateDefaultGeneSequence else s
    | none => generateDefaultGeneSequence
  let genes := parseGeneSequence seq
  { genes := genes
    phenotype := calculatePhenotype genes
    progress := 0
    health := 100
    ready := false
    watered := true }

/-- The event object returned by `Plant.update`. -/
inductive UpdateEvent
  | died
  | matured
  | growing
  deriving DecidableEq, Repr

/-- `Plant.update(waterLevel, pestPresent, weatherEvent)`.  `r` is the
`Math.random()` stream and `i` the index of the next unconsumed draw; the
returned index accounts for exactly the draws the source performs.  A `none`
event models the bare `return;` on an already-ready plant. -/
def update (p : PlantState) (waterLevel : ℚ) (pestPresent : Bool)
    (weatherEvent : Option String) (r : ℕ → ℚ) (i : ℕ) :
    PlantState × Option UpdateEvent × ℕ :=
  if p.ready then (p, none, i) else
  let growthIncrement : ℚ := 10
  let growthIncrement :=
    match p.phenotype.GR with
    | some gr => growthIncrement * orElseNum gr.effectiveValue gr.value
    | none => growthIncrement
  let waterNeeds := orElseNum (p.phenotype.WN.bind (·.effectiveWaterPerDay)) 20
  let (growthIncrement, health, watered) :=
    if waterLevel < waterNeeds then
      let waterRatio := waterLevel / waterNeeds
      let health :=
        if waterRatio < 0.5 then p.health - (1 - waterRatio) * 5 else p.health
      (growthIncrement * waterRatio, health, false)
    else
      (growthIncrement, p.health, true)
  let (growthIncrement, health, i) :=
    if pestPresent then
      let damageChance := orElseNum (p.phenotype.RS.bind (·.effectivePestDamageChance)) 0.2
      if r i < damageChance then (growthIncrement * 0.5, health - 10, i + 1)
      else (growthIncrement, health, i + 1)
    else (growthIncrement, health, i)
  let (growthIncrement, health, i) :=
    match weatherEvent with
    | some w =>
      if w = "drought" then
        let droughtResistance := orElseNum (p.phenotype.WN.bind (·.droughtResistance)) 0.5
        if r i > droughtResistance then (growthIncrement * 0.3, health - 15, i + 1)
        else (growthIncrement, health, i + 1)
      else if w = "storm" then
        let weatherDamageChance := orElseNum (p.phenotype.RS.bind (·.weatherDamageChance)) 0.2
        let size := orElseNum (p.phenotype.SZ.map (·.value)) 3
        let stormVulnerability := size / 5
        if r i < weatherDamageChance * stormVulnerability then ((0 : ℚ), health - 20, i + 1)
        else (growthIncrement, health, i + 1)
      else (growthIncrement, health, i)
    | none => (growthIncrement, health, i)
  let progress := p.progress + growthIncrement
  let (progress, ready) := if progress ≥ 100 then ((100 : ℚ), true) else (progress, p.ready)
  let health := max 0 (min 100 health)
  if health ≤ 0 then
    ({ p with progress := progress, health := 0, ready := ready, watered := watered },
     some .died, i)
  else if ready then
    ({ p with progress := progress, health := health, ready := ready, watered := watered },
     some .matured, i)
  else
    ({ p with progress := progress, health := health, ready := ready, watered := watered },
     some .growing, i)

/-- The record returned by `Plant.getInfo`. -/
structure PlantInfo where
  name : String
  flowerColor : String
  leafShape : String
  size : ℚ
  growthDays : ℚ
  waterNeeds : ℚ
  resistance : ℚ
  sellPrice : ℚ
  emoji : String
  growth : ℚ
  isReady : Bool
  deriving DecidableEq, Repr

/-- The display name of a resolved qualitative entry. -/
def QualResult.displayName : QualResult → String
  | .allele a => a.name
  | .blend b => b.name

/-- The display value of a resolved qualitative entry. -/
def QualResult.displayValue : QualResult → String
  | .allele a => a.value
  | .blend b => b.value

/-- `Plant.getEmoji`. -/
def getEmoji (p : PlantState) : String :=
  match p.phenotype.FC with
  | none => "🌱"
  | some fc =>
    let colorName := fc.displayName.toLower
    let emojiMap : List (String × String) :=
      [("red", "🌹"), ("blue", "🌸"), ("yellow", "🌻"), ("white", "🌼"),
       ("pink", "🌷"), ("purple", "💐"), ("orange", "🌺"), ("green", "🌿"),
       ("light red", "🌹"), ("light blue", "🌸"), ("light yellow", "🌼"),
       ("deep pink", "🌷"), ("peach", "🌺")]
    orElseStr (objGet emojiMap colorName) "🌱"

/-- `Plant.getInfo`. -/
def getInfo (p : PlantState) : PlantInfo :=
  let daysToMature := orElseNum (p.phenotype.GR.bind (·.daysToMature)) 10
  let flowerColorName :=
    match p.phenotype.FC with
    | some fc => fc.displayName
    | none => "Unknown"
  let flowerColorValue :=
    match p.phenotype.FC with
    | some fc => fc.displayValue
    | none => "#FFFFFF"
  let leafShapeName :=
    match p.phenotype.LS with
    | some ls => ls.displayName
    | none => "Unknown"
  let basePrice : ℚ := 10
  let yieldMultiplier := orElseNum (p.phenotype.YD.bind (·.effectiveCoinMultiplier)) 1.0
  { name := flowerColorName ++ " " ++ leafShapeName ++ " Plant"
    flowerColor := flowerColorValue
    leafShape := orElseStr (p.phenotype.LS.map (·.displayValue)) "oval"
    size := orElseNum (p.phenotype.SZ.map (·.value)) 3
    growthDays := daysToMature
    waterNeeds := orElseNum (p.phenotype.WN.bind (·.effectiveWaterPerDay)) 20
    resistance := jsRound ((1 - orElseNum (p.phenotype.RS.bind (·.effectivePestDamageChance)) 0.2) * 100)
    sellPrice := jsRound (basePrice * yieldMultiplier)
    emoji := getEmoji p
    growth := p.progress
    isReady := p.ready }

/-- The `rewards` object of a successful harvest. -/
structure HarvestRewards where
  coins : ℚ
  seeds : ℚ
  geneSequence : String
  deriving DecidableEq, Repr

/-- The result object of `Plant.harvest`. -/
structure HarvestResult where
  success : Bool
  rewards : Option HarvestRewards := none
  message : String
  deriving DecidableEq, Repr

/-- `Plant.harvest`.  Returns the (unmodified) plant state, the result object,
and the next random index (one Bernoulli draw for seeds on success). -/
def harvest (p : PlantState) (r : ℕ → ℚ) (i : ℕ) :
    PlantState × HarvestResult × ℕ :=
  if !p.ready then
    (p, { success := false, message := "Plant not ready for harvest" }, i)
  else
    let yieldMultiplier := orElseNum (p.phenotype.YD.bind (·.effectiveCoinMultiplier)) 1.0
    let baseCoins : ℚ := 10
    let coins := jsRound (baseCoins * yieldMultiplier)
    let seedChance := orElseNum (p.phenotype.YD.bind (·.seedChance)) 0.5
    let seeds : ℚ := if r i < seedChance then 1 else 0
    (p,
     { success := true
       rewards := some
         { coins := coins, seeds := seeds, geneSequence := toGeneSequence p.genes }
       message := "Harvested " ++ (getInfo p).name ++ " for " ++ ratToString coins ++
                  " coins and " ++ ratToString seeds ++ " seeds!" },
     i + 1)

/-- One crossing-history record; `date` stands in for the `new Date()` clock
read, supplied by the caller of the model. -/
structure CrossRecord where
  parentA : String
  parentB : String
  offspring : String
  date : ℚ
  deriving DecidableEq, Repr

/-- `s[i]` with a JS (possibly negative) index: out of range is `undefined`. -/
def jsCharAtIdx (s : String) (idx : ℤ) : Option Char :=
  if idx < 0 then none else s.data.get? idx.toNat

/-- `PlantBreeder.mutateMutation(gene, geneKey)` with the random stream. -/
def mutateMutation (gene : String) (geneKey : String) (r : ℕ → ℚ) (i : ℕ) :
    String × ℕ :=
  match objGet GENE_TRAITS geneKey with
  | none => (gene, i)
  | some trait =>
    match trait.type with
    | .qualitative =>
      if trait.alleles = [] then (gene, i)
      else
        let alleleIdx := ratFloor (r i * (gene.data.length : ℚ))
        let newAllele :=
          match (trait.alleles.map Prod.fst).get? (ratFloor (r (i+1) * (trait.alleles.length : ℚ))).toNat with
          | some k => k
          | none => "undefined"
        let mutated :=
          if alleleIdx = 0 then newAllele ++ optCharConcat (gene.data.get? 1)
          else optCharConcat (gene.data.get? 0) ++ newAllele
        (mutated, i + 2)
    | .quantitative =>
      let value : Option ℚ :=
        if gene.data.length = 2 then
          match jsParseIntStr (String.mk (gene.data.take 1)),
                jsParseIntStr (String.mk (gene.data.drop 1)) with
          | some a, some b => some (((a : ℚ) + (b : ℚ)) / 2)
          | _, _ => none
        else (jsParseIntStr gene).map fun n => (n : ℚ)
      let value := value.getD (defaultNum trait)
      let value := value + (if r i < 0.5 then (-1 : ℚ) else 1)
      let value := max trait.min (min trait.max (jsRound value))
      (ratToString value ++ ratToString value, i + 1)

/-- The per-trait offspring computation inside `PlantBreeder.crossPlants`
(the body of the `Object.keys(GENE_TRAITS).forEach` loop). -/
def crossGene (genesA genesB : Genotype) (key : String) (t : TraitDef)
    (r : ℕ → ℚ) (i : ℕ) : JSVal × ℕ :=
  let gA := objGet genesA key
  let gB := objGet genesB key
  if !(gA.map jsTruthy).getD false || !(gB.map jsTruthy).getD false then
    (t.defaultValue, i)
  else
    let (newGene, i) :=
      match t.type with
      | .qualitative =>
        let (alleleA, i) :=
          match gA with
          | some (.str s) =>
            if s.data.length ≥ 1 then
              (optCharConcat (jsCharAtIdx s (ratFloor (r i * (s.data.length : ℚ)))), i + 1)
            else
              (match t.alleles.head? with
               | some kv => kv.1
               | none => "undefined", i)
          | _ =>
            (match t.alleles.head? with
             | some kv => kv.1
             | none => "undefined", i)
        let (alleleB, i) :=
          match gB with
          | some (.str s) =>
            if s.data.length ≥ 1 then
              (optCharConcat (jsCharAtIdx s (ratFloor (r i * (s.data.length : ℚ)))), i + 1)
            else
              (match t.alleles.head? with
               | some kv => kv.1
               | none => "undefined", i)
          | _ =>
            (match t.alleles.head? with
             | some kv => kv.1
             | none => "undefined", i)
        (alleleA ++ alleleB, i)
      | .quantitative =>
        let parseSide : Option JSVal → Option ℚ := fun g =>
          match g with
          | some (.str s) =>
            if s.data.length = 2 then
              match jsParseIntStr (String.mk (s.data.take 1)),
                    jsParseIntStr (String.mk (s.data.drop 1)) with
              | some a, some b => some (((a : ℚ) + (b : ℚ)) / 2)
              | _, _ => none
            else (jsParseIntStr s).map fun n => (n : ℚ)
          | some v => (jsParseIntVal v).map fun n => (n : ℚ)
          | none => none
        let valueA := (parseSide gA).getD (defaultNum t)
        let valueB := (parseSide gB).getD (defaultNum t)
        let averageValue := (valueA + valueB) / 2
        let variation := r i * 0.6 - 0.3
        let finalValue := max t.min (min t.max (jsRound (averageValue + variation)))
        (ratToString finalValue ++ ratToString finalValue, i + 1)
    if r i < 0.05 then
      let (mutated, i') := mutateMutation newGene key r (i + 1)
      (.str mutated, i')
    else
      (.str newGene, i + 1)

/-- `PlantBreeder.crossPlants(plantA, plantB)` acting on an explicit history
list.  Returns the offspring (or `null`), the new history, and the next
random index. -/
def crossPlants (plantA plantB : Option PlantState) (hist : List CrossRecord)
    (now : ℚ) (r : ℕ → ℚ) (i : ℕ) :
    Option PlantState × List CrossRecord × ℕ :=
  match plantA, plantB with
  | some pa, some pb =>
    let folded :=
      GENE_TRAITS.foldl
        (fun (acc : Genotype × ℕ) kt =>
          let g := crossGene pa.genes pb.genes kt.1 kt.2 r acc.2
          (objSet acc.1 kt.1 g.1, g.2))
        ([], i)
    let offspringGenes := folded.1
    let geneSequence :=
      joinStrings '-' (offspringGenes.map fun kv => kv.1 ++ ":" ++ jsValToString kv.2)
    let offspring := Plant.create (some geneSequence)
    let record : CrossRecord :=
      { parentA := toGeneSequence pa.genes
        parentB := toGeneSequence pb.genes
        offspring := toGeneSequence offspring.genes
        date := now }
    (some offspring, hist ++ [record], folded.2)
  | _, _ => (none, hist, i)

/-- A character a conforming genotype value may use for a given trait:
a recognized allele key for a qualitative trait, a decimal digit for a
quantitative one. -/
def validChar (t : TraitDef) (c : Char) : Bool :=
  match t.type with
  | .qualitative => (t.alleles.map Prod.fst).contains (String.mk [c])
  | .quantitative => c.isDigit

/-- A genotype value conforming to a registry trait: a 2-character string of
valid characters. -/
def validValueB (t : TraitDef) (v : JSVal) : Bool :=
  match v with
  | .str s => s.data.length == 2 && s.data.all (validChar t)
  | _ => false

/-- One genotype entry conforming to the registry: a registered key mapped to
a valid value for its trait. -/
def conformsEntry (kv : String × JSVal) : Bool :=
  match objGet GENE_TRAITS kv.1 with
  | some t => validValueB t kv.2
  | none => false

/-- A genotype conforming to the registry (§3 of the specification): unique
keys covering exactly the registered traits, each mapped to a valid
2-character value for its trait. -/
def Conforming (g : Genotype) : Prop :=
  (g.map Prod.fst).Nodup ∧
  (∀ kt ∈ GENE_TRAITS, kt.1 ∈ g.map Prod.fst) ∧
  g.all conformsEntry = true

/-- A gene sequence of 13 unregistered keys: parsing it yields 13 entries
`"00"` plus the registered defaults, of which `"WW"` and `"11"` are also
homozygous strings, for a homozygosity count of exactly 15 (inbreeding
factor exactly 0). -/
def inbredSeq : String :=
  "A:00-C:00-D:00-E:00-F:00-G:00-H:00-I:00-J:00-K:00-L:00-M:00-N:00"

/-- A ready-to-harvest plant whose Yield `effectiveCoinMultiplier` resolves
to exactly 0. -/
def inbredReadyPlant : PlantState :=
  { Plant.create (some inbredSeq) with ready := true }

/-! ### Basic lemmas about the JS-object model -/

theorem objGet_objSet_self {α : Type} (m : List (String × α)) (k : String) (v : α) :
    objGet (objSet m k v) k = some v := by
  induction m with
  | nil => simp [objGet, objSet]
  | cons kv rest ih =>
    by_cases h : kv.1 = k
    · simp [objGet, objSet, h]
    · simp [objGet, objSet, h, ih]

theorem objGet_objSet_ne {α : Type} (m : List (String × α)) (k k' : String) (v : α)
    (h : k' ≠ k) : objGet (objSet m k' v) k = objGet m k := by
  induction m with
  | nil => simp [objGet, objSet, h]
  | cons kv rest ih =>
    obtain ⟨k0, v0⟩ := kv
    by_cases hk : k0 = k'
    · subst hk
      simp [objGet, objSet, h]
    · by_cases hk2 : k0 = k <;> simp [objGet, objSet, hk, hk2, ih, Ne.symm h]

theorem objGet_mem {α : Type} {m : List (String × α)} {k : String} {v : α}
    (h : objGet m k = some v) : (k, v) ∈ m := by
  induction m with
  | nil => simp [objGet] at h
  | cons kv rest ih =>
    obtain ⟨k0, v0⟩ := kv
    by_cases hk : k0 = k
    · subst hk
      have h' : v0 = v := by simpa [objGet] using h
      subst h'
      exact List.mem_cons_self _ _
    · simp only [objGet, if_neg hk] at h
      exact List.mem_cons_of_mem _ (ih h)

theorem objGet_isSome_of_mem_keys {α : Type} {m : List (String × α)} {k : String}
    (h : k ∈ m.map Prod.fst) : ∃ v, objGet m k = some v ∧ (k, v) ∈ m := by
  induction m with
  | nil => simp at h
  | cons kv rest ih =>
    obtain ⟨k0, v0⟩ := kv
    by_cases hk : k0 = k
    · subst hk
      exact ⟨v0, by simp [objGet], List.mem_cons_self _ _⟩
    · have hmem : k ∈ rest.map Prod.fst := by
        simp only [List.map_cons, List.mem_cons] at h
        rcases h with h1 | h1
        · exact absurd h1.symm hk
        · exact h1
      obtain ⟨v, hv, hm⟩ := ih hmem
      exact ⟨v, by simp [objGet, hk, hv], List.mem_cons_of_mem _ hm⟩

theorem objSet_append {α : Type} (m : List (String × α)) (k : String) (v : α)
    (h : k ∉ m.map Prod.fst) : objSet m k v = m ++ [(k, v)] := by
  induction m with
  | nil => simp [objSet]
  | cons kv rest ih =>
    obtain ⟨k0, v0⟩ := kv
    simp only [List.map_cons, List.mem_cons, not_or] at h
    have hne : k0 ≠ k := fun hh => h.1 hh.symm
    simp [objSet, hne, ih h.2]

/-! ### Split/join round-trip lemmas -/

theorem splitChar_ne_nil (sep : Char) (cs : List Char) : splitChar sep cs ≠ [] := by
  cases cs with
  | nil => simp [splitChar]
  | cons c cs =>
    cases h : splitChar sep cs with
    | nil => simp [splitChar, h]
    | cons p ps =>
      by_cases hc : c = sep <;> simp [splitChar, h, hc]

theorem splitChar_cons_sep (sep : Char) (cs : List Char) :
    splitChar sep (sep :: cs) = [] :: splitChar sep cs := by
  cases h : splitChar sep cs with
  | nil => exact absurd h (splitChar_ne_nil sep cs)
  | cons p ps => simp [splitChar, h]

theorem splitChar_cons_ne (sep c : Char) (cs : List Char) (hc : c ≠ sep)
    {q : List Char} {qs : List (List Char)} (h : splitChar sep cs = q :: qs) :
    splitChar sep (c :: cs) = (c :: q) :: qs := by
  simp [splitChar, h, hc]

theorem splitChar_append (sep : Char) (p cs : List Char) (hp : sep ∉ p)
    {q : List Char} {qs : List (List Char)} (h : splitChar sep cs = q :: qs) :
    splitChar sep (p ++ cs) = (p ++ q) :: qs := by
  induction p with
  | nil => simpa using h
  | cons c p' ih =>
    simp only [List.mem_cons] at hp
    push_neg at hp
    have := ih hp.2
    simpa using splitChar_cons_ne sep c (p' ++ cs) (Ne.symm hp.1) this

theorem splitChar_joinChar (sep : Char) (parts : List (List Char))
    (h0 : parts ≠ []) (h : ∀ p ∈ parts, sep ∉ p) :
    splitChar sep (joinChar sep parts) = parts := by
  induction parts with
  | nil => exact absurd rfl h0
  | cons p parts' ih =>
    cases parts' with
    | nil =>
      have hp : sep ∉ p := h p (by simp)
      have : splitChar sep (p ++ ([] : List Char)) = (p ++ []) :: [] :=
        splitChar_append sep p [] hp (by simp [splitChar])
      simpa [joinChar] using this
    | cons p2 parts'' =>
      have ih2 : splitChar sep (joinChar sep (p2 :: parts'')) = p2 :: parts'' :=
        ih (by simp) (fun x hx => h x (List.mem_cons_of_mem _ hx))
      have hstep : splitChar sep (sep :: joinChar sep (p2 :: parts'')) =
          [] :: p2 :: parts'' := by
        rw [splitChar_cons_sep, ih2]
      have hp : sep ∉ p := h p (by simp)
      have := splitChar_append sep p (sep :: joinChar sep (p2 :: parts'')) hp hstep
      simpa [joinChar] using this

theorem jsSplit_joinStrings (sep : Char) (parts : List String)
    (h0 : parts ≠ []) (h : ∀ p ∈ parts, sep ∉ p.data) :
    jsSplit sep (joinStrings sep parts) = parts := by
  unfold jsSplit joinStrings
  have hd : (String.mk (joinChar sep (parts.map String.data))).data =
      joinChar sep (parts.map String.data) := rfl
  rw [hd, splitChar_joinChar sep (parts.map String.data) (by simpa using h0)
    (by intro p hp; obtain ⟨s, hs, rfl⟩ := List.mem_map.mp hp; exact h s hs)]
  rw [List.map_map]
  have hid : (String.mk ∘ String.data) = id := funext fun s => rfl
  rw [hid, List.map_id]

theorem jsSplit_colon_pair (k s : String) (hk : ':' ∉ k.data) (hs : ':' ∉ s.data) :
    jsSplit ':' (k ++ ":" ++ s) = [k, s] := by
  have hdata : (k ++ ":" ++ s).data = k.data ++ ':' :: s.data := by
    simp [String.data_append]
  have hjoin : k ++ ":" ++ s = joinStrings ':' [k, s] := by
    unfold joinStrings
    calc k ++ ":" ++ s = String.mk ((k ++ ":" ++ s).data) := rfl
      _ = String.mk (k.data ++ ':' :: s.data) := by rw [hdata]
      _ = String.mk (joinChar ':' ([k, s].map String.data)) := rfl
  rw [hjoin]
  refine jsSplit_joinStrings ':' [k, s] (by simp) ?_
  intro p hp
  rcases List.mem_cons.mp hp with rfl | hp2
  · exact hk
  · rcases List.mem_cons.mp hp2 with rfl | h3
    · exact hs
    · simp at h3

/-! ### Conformance lemmas -/

theorem validChar_not_sep {k : String} {t : TraitDef} (h : objGet GENE_TRAITS k = some t)
    {c : Char} (hc : validChar t c = true) : c ≠ ':' ∧ c ≠ '-' := by
  have hmem : (k, t) ∈ GENE_TRAITS := objGet_mem h
  simp only [GENE_TRAITS, List.mem_cons, List.not_mem_nil, or_false, Prod.mk.injEq] at hmem
  rcases hmem with hc8 | hc8 | hc8 | hc8 | hc8 | hc8 | hc8 | hc8 <;>
    obtain ⟨-, rfl⟩ := hc8 <;>
    exact ⟨fun hcc => by subst hcc; revert hc; decide,
           fun hcc => by subst hcc; revert hc; decide⟩

theorem registryKey_not_sep {k : String} {t : TraitDef}
    (h : objGet GENE_TRAITS k = some t) : ':' ∉ k.data ∧ '-' ∉ k.data := by
  have hmem : (k, t) ∈ GENE_TRAITS := objGet_mem h
  simp only [GENE_TRAITS, List.mem_cons, List.not_mem_nil, or_false, Prod.mk.injEq] at hmem
  rcases hmem with hc8 | hc8 | hc8 | hc8 | hc8 | hc8 | hc8 | hc8 <;>
    obtain ⟨rfl, -⟩ := hc8 <;>
    exact ⟨by decide, by decide⟩

theorem validValue_props {k : String} {t : TraitDef} (h : objGet GENE_TRAITS k = some t)
    {v : JSVal} (hv : validValueB t v = true) :
    ∃ s, v = .str s ∧ ':' ∉ s.data ∧ '-' ∉ s.data ∧ jsTruthy (.str s) = true := by
  cases v with
  | str s =>
    simp only [validValueB, Bool.and_eq_true, beq_iff_eq, List.all_eq_true] at hv
    refine ⟨s, rfl, ?_, ?_, ?_⟩
    · intro hin
      exact (validChar_not_sep h (hv.2 _ hin)).1 rfl
    · intro hin
      exact (validChar_not_sep h (hv.2 _ hin)).2 rfl
    · have hne : s ≠ "" := by
        intro hs
        rw [hs] at hv
        exact absurd hv.1 (by decide)
      simpa [jsTruthy] using hne
  | undef => simp [validValueB] at hv
  | num q => simp [validValueB] at hv

theorem parseSegment_conforming (acc : Genotype) (k s : String) (t : TraitDef)
    (h : objGet GENE_TRAITS k = some t) (hk : ':' ∉ k.data) (hs : ':' ∉ s.data)
    (hacc : k ∉ acc.map Prod.fst) :
    parseSegment acc (k ++ ":" ++ s) = acc ++ [(k, .str s)] := by
  unfold parseSegment
  rw [jsSplit_colon_pair k s hk hs]
  simp [h, objSet_append acc k _ hacc]

theorem parse_fold_conforming :
    ∀ (g acc : Genotype),
      (∀ kv ∈ g, conformsEntry kv = true) →
      (g.map Prod.fst).Nodup →
      (∀ k, k ∈ g.map Prod.fst → k ∉ acc.map Prod.fst) →
      (g.map (fun kv => kv.1 ++ ":" ++ jsValToString kv.2)).foldl parseSegment acc =
        acc ++ g := by
  intro g
  induction g with
  | nil => intro acc _ _ _; simp
  | cons kv g' ih =>
    intro acc hval hnd hdisj
    obtain ⟨k, v⟩ := kv
    have hent := hval (k, v) (List.mem_cons_self _ _)
    unfold conformsEntry at hent
    rcases hobj : objGet GENE_TRAITS k with - | t
    · rw [hobj] at hent; simp at hent
    · rw [hobj] at hent
      obtain ⟨s, rfl, hsc, hsd, -⟩ := validValue_props hobj hent
      simp only [List.map_cons, List.foldl_cons]
      rw [show jsValToString (.str s) = s from rfl]
      rw [parseSegment_conforming acc k s t hobj (registryKey_not_sep hobj).1 hsc
        (hdisj k (by simp))]
      have hnd' : (g'.map Prod.fst).Nodup :=
        (List.nodup_cons.mp (by simpa using hnd)).2
      have hhead : k ∉ g'.map Prod.fst :=
        (List.nodup_cons.mp (by simpa using hnd)).1
      have hdisj' : ∀ k2 ∈ g'.map Prod.fst,
          k2 ∉ (acc ++ [(k, JSVal.str s)]).map Prod.fst := by
        intro k2 hk2
        simp only [List.map_append, List.mem_append, List.map_cons, List.map_nil,
          List.mem_cons, List.not_mem_nil, or_false, not_or]
        exact ⟨hdisj k2 (by simp [hk2]), fun he => hhead (he ▸ hk2)⟩
      rw [ih (acc ++ [(k, JSVal.str s)])
        (fun kv2 h2 => hval kv2 (List.mem_cons_of_mem _ h2)) hnd' hdisj']
      simp

theorem fillDefaults_id (g : Genotype)
    (h : ∀ kt ∈ GENE_TRAITS, ∃ v, objGet g kt.1 = some v ∧ jsTruthy v = true) :
    fillDefaults g = g := by
  unfold fillDefaults
  suffices h2 : ∀ (l : List (String × TraitDef)),
      (∀ kt ∈ l, ∃ v, objGet g kt.1 = some v ∧ jsTruthy v = true) →
      l.foldl fillStep g = g by
    exact h2 GENE_TRAITS h
  intro l
  induction l with
  | nil => intro _; rfl
  | cons kt l' ih =>
    intro hl
    obtain ⟨v, hv, htr⟩ := hl kt (List.mem_cons_self _ _)
    simp only [List.foldl_cons, fillStep, hv, htr, if_true]
    exact ih fun kt2 h2 => hl kt2 (List.mem_cons_of_mem _ h2)

/-! ### Claim theorems -/

/-- Claim C1 (code bug witness): the blend table does contain the entry
`"RB" ↦ Purple #9955FF`, but the code looks up the lexicographically sorted
pair, which for R/B is `"BR"` — not a table key — so genotype `"RB"` resolves
to the Red allele and `"BR"` to the Blue allele by the equal-dominance rule,
not to the Purple blend the spec (and the table itself) intends. -/
theorem C1_blend_entry_unreachable :
    objGet FCdef.blendMap "RB" = some ⟨"Purple", "#9955FF"⟩ ∧
    objGet FCdef.blendMap "BR" = none ∧
    resolveQualitative FCdef (.str "RB") = some (.allele ⟨"Red", 2, "#FF5555"⟩) ∧
    resolveQualitative FCdef (.str "BR") = some (.allele ⟨"Blue", 2, "#5555FF"⟩) ∧
    (Plant.create (some "FC:RB")).phenotype.FC = some (.allele ⟨"Red", 2, "#FF5555"⟩) ∧
    (Plant.create (some "FC:BR")).phenotype.FC = some (.allele ⟨"Blue", 2, "#5555FF"⟩) := by
  refine ⟨rfl, rfl, rfl, rfl, ?_, ?_⟩ <;> with_unfolding_all rfl

/-- Claim C8: `update()` on a plant whose ready flag is already true returns
immediately: every field is unchanged, no event is produced and no random
draw is consumed, for every argument combination and random stream. -/
theorem C8_update_ready_noop (p : PlantState) (h : p.ready = true)
    (waterLevel : ℚ) (pestPresent : Bool) (weatherEvent : Option String)
    (r : ℕ → ℚ) (i : ℕ) :
    update p waterLevel pestPresent weatherEvent r i = (p, none, i) := by
  unfold update
  rw [h]
  simp

/-- Witness for C8 at a concrete ready plant with adversarial arguments. -/
theorem C8_update_ready_noop_witness :
    update { Plant.create (some "FC:RB") with ready := true } 5 true (some "storm")
        (fun _ => 0) 0 =
      ({ Plant.create (some "FC:RB") with ready := true }, none, 0) :=
  C8_update_ready_noop _ rfl 5 true (some "storm") (fun _ => 0) 0

/-- Claim C10: in quantitative resolution the digit `'0'` contributes the
trait's minimum, exactly as a failed parse does (the `|| gene.min` fallback
sees the falsy 0), and the Growth Rate genotype `"10"` resolves to
`round((1 + 0.5) / 2) = 1`. -/
theorem C10_zero_digit_contributes_min :
    (GENE_TRAITS.all fun kt =>
      kt.2.type != .quantitative ||
        (decide (alleleNumOrMin kt.2 (some '0') = kt.2.min) &&
         decide (alleleNumOrMin kt.2 (some '0') = alleleNumOrMin kt.2 none))) = true ∧
    alleleNumOrMin GRdef (some '1') = 1 ∧
    alleleNumOrMin GRdef (some '0') = 0.5 ∧
    quantResolve GRdef (.str "10") = jsRound ((1 + 0.5) / 2) ∧
    jsRound ((1 + 0.5) / 2) = 1 ∧
    (quantPhen GRdef (.str "10")).value = 1 := by
  refine ⟨?_, ?_, ?_, ?_, ?_, ?_⟩ <;> with_unfolding_all decide

/-- Claim C5 (counterexample): parsing `"XX:AB"` retains the unregistered key
`"XX"` in the resulting genotype, mapped to the fallback string `"00"` — the
segment's key is not dropped, contrary to the claim that no unregistered key
appears in the parsed genotype. -/
theorem C5_unknown_key_retained :
    objGet GENE_TRAITS "XX" = none ∧
    objGet (parseGeneSequence "XX:AB") "XX" = some (.str "00") := by
  refine ⟨rfl, ?_⟩
  with_unfolding_all rfl

/-- Claim C6 (counterexample): the homozygous unrecognized pair `"ZZ"` on
Flower Color resolves to `undefined` (the allele lookup fails and no fallback
runs in the homozygous branch), not to the first-defined allele Red as the
claim states for all unrecognized characters. -/
theorem C6_homozygous_unrecognized_undefined :
    resolveQualitative FCdef (.str "ZZ") = none ∧
    firstAlleleDef FCdef = some ⟨"Red", 2, "#FF5555"⟩ ∧
    (Plant.create (some "FC:ZZ")).phenotype.FC = none := by
  refine ⟨rfl, rfl, ?_⟩
  with_unfolding_all rfl

/-- Claim C3: for every quantitative registry trait and every input genotype
value — malformed, non-numeric or out-of-range — the resolved phenotype
`value` lies within the trait's inclusive range [min, max]. -/
theorem C3_quant_value_in_range (k : String) (t : TraitDef)
    (h : objGet GENE_TRAITS k = some t) (ht : t.type = .quantitative) (v : JSVal) :
    t.min ≤ (quantPhen t v).value ∧ (quantPhen t v).value ≤ t.max := by
  have hminmax : t.min ≤ t.max := by
    have hmem : (k, t) ∈ GENE_TRAITS := objGet_mem h
    simp only [GENE_TRAITS, List.mem_cons, List.not_mem_nil, or_false,
      Prod.mk.injEq] at hmem
    rcases hmem with hc8 | hc8 | hc8 | hc8 | hc8 | hc8 | hc8 | hc8 <;>
      obtain ⟨-, rfl⟩ := hc8 <;> norm_num [FCdef, SZdef, LSdef,
      BPdef, GRdef, YDdef, RSdef, WNdef]
  have hval : ∀ (q : ℚ) (e : Option EffectDef), (QuantPhen.ofSpread q e).value = q := by
    intro q e
    cases e <;> rfl
  unfold quantPhen
  rw [hval]
  unfold quantResolve
  exact ⟨le_max_left _ _, max_le hminmax (min_le_left _ _)⟩

/-- Witness for C3 on Size with the malformed value "zz". -/
theorem C3_quant_value_in_range_witness :
    SZdef.min ≤ (quantPhen SZdef (.str "zz")).value ∧
    (quantPhen SZdef (.str "zz")).value ≤ SZdef.max :=
  C3_quant_value_in_range "SZ" SZdef rfl rfl (.str "zz")

/-- Claim C4 (counterexample): on a ready plant whose Yield
`effectiveCoinMultiplier` resolves to exactly 0 (possible through the
inbreeding factor with 15 homozygous entries), `harvest` pays
`round(10 * 1.0) = 10` coins — the `|| 1.0` fallback treats the 0 multiplier
as absent — not `round(10 * effectiveCoinMultiplier) = 0` as the claim
states. -/
theorem C4_zero_multiplier_coins :
    (inbredReadyPlant.phenotype.YD.bind fun yd => yd.effectiveCoinMultiplier) = some 0 ∧
    ((harvest inbredReadyPlant (fun _ => 1/4) 0).2.1.rewards.map fun rw => rw.coins) =
      some 10 ∧
    jsRound (10 * 0) = 0 ∧
    ((harvest inbredReadyPlant (fun _ => 1/4) 0).2.1.rewards.map fun rw => rw.coins) ≠
      some (jsRound (10 * 0)) := by
  refine ⟨?_, ?_, ?_, ?_⟩ <;> with_unfolding_all decide

/-- Claim C4 (amended): `harvest()` on a non-ready plant returns a failure
result and leaves the state, message and random index untouched; on a ready
plant it returns success, coins `round(10 * m)` where `m` is the resolved
`effectiveCoinMultiplier` when that is present and nonzero and `1.0`
otherwise, and a seed count that is exactly 0 or 1 for every random draw,
again without mutating the plant. -/
theorem C4_harvest_behavior (p : PlantState) (r : ℕ → ℚ) (i : ℕ) :
    (p.ready = false →
      harvest p r i =
        (p, { success := false, message := "Plant not ready for harvest" }, i)) ∧
    (p.ready = true →
      (harvest p r i).1 = p ∧
      (harvest p r i).2.1.success = true ∧
      ∃ rw, (harvest p r i).2.1.rewards = some rw ∧
        rw.coins = jsRound (10 *
          orElseNum (p.phenotype.YD.bind fun yd => yd.effectiveCoinMultiplier) 1.0) ∧
        (rw.seeds = 0 ∨ rw.seeds = 1)) := by
  constructor
  · intro h
    unfold harvest
    rw [h]
    rfl
  · intro h
    unfold harvest
    rw [h]
    refine ⟨rfl, rfl, _, rfl, rfl, ?_⟩
    rcases lt_or_le (r i)
        (orElseNum (p.phenotype.YD.bind fun yd => yd.seedChance) 0.5) with hs | hs
    · right
      exact if_pos hs
    · left
      exact if_neg (not_lt.mpr hs)

/-- Witness for C4: both branches applied at concrete plants. -/
theorem C4_harvest_behavior_witness :
    harvest (Plant.create (some "FC:RB")) (fun _ => 1/4) 0 =
      (Plant.create (some "FC:RB"),
       { success := false, message := "Plant not ready for harvest" }, 0) ∧
    ((harvest inbredReadyPlant (fun _ => 1/4) 0).1 = inbredReadyPlant ∧
      (harvest inbredReadyPlant (fun _ => 1/4) 0).2.1.success = true ∧
      ∃ rw, (harvest inbredReadyPlant (fun _ => 1/4) 0).2.1.rewards = some rw ∧
        rw.coins = jsRound (10 * orElseNum
          (inbredReadyPlant.phenotype.YD.bind fun yd => yd.effectiveCoinMultiplier) 1.0) ∧
        (rw.seeds = 0 ∨ rw.seeds = 1)) :=
  ⟨(C4_harvest_behavior (Plant.create (some "FC:RB")) (fun _ => 1/4) 0).1 rfl,
   (C4_harvest_behavior inbredReadyPlant (fun _ => 1/4) 0).2 rfl⟩

theorem fillStep_preserves_truthy (m : Genotype) (kt : String × TraitDef) (k : String)
    (h : ∃ v, objGet m k = some v ∧ jsTruthy v = true) :
    ∃ v, objGet (fillStep m kt) k = some v ∧ jsTruthy v = true := by
  obtain ⟨v, hv, htr⟩ := h
  unfold fillStep
  cases hm : objGet m kt.1 with
  | some v2 =>
    dsimp only
    by_cases ht2 : jsTruthy v2 = true
    · simpa [ht2] using ⟨v, hv, htr⟩
    · by_cases hk : kt.1 = k
      · subst hk
        rw [hm] at hv
        cases hv
        exact absurd htr ht2
      · rw [if_neg ht2]
        exact ⟨v, by rw [objGet_objSet_ne m k kt.1 _ hk]; exact hv, htr⟩
  | none =>
    dsimp only
    by_cases hk : kt.1 = k
    · subst hk
      rw [hm] at hv
      cases hv
    · exact ⟨v, by rw [objGet_objSet_ne m k kt.1 _ hk]; exact hv, htr⟩

theorem fold_fillStep_preserves_truthy (l : List (String × TraitDef)) (m : Genotype)
    (k : String) (h : ∃ v, objGet m k = some v ∧ jsTruthy v = true) :
    ∃ v, objGet (l.foldl fillStep m) k = some v ∧ jsTruthy v = true := by
  induction l generalizing m with
  | nil => exact h
  | cons kt l' ih => exact ih _ (fillStep_preserves_truthy m kt k h)

theorem fold_fillStep_establishes (l : List (String × TraitDef)) (m : Genotype)
    (k : String) (t : TraitDef) (hmem : (k, t) ∈ l)
    (hdef : ∀ kt ∈ l, jsTruthy kt.2.defaultValue = true) :
    ∃ v, objGet (l.foldl fillStep m) k = some v ∧ jsTruthy v = true := by
  induction l generalizing m with
  | nil => simp at hmem
  | cons kt l' ih =>
    simp only [List.foldl_cons]
    by_cases hk : kt.1 = k
    · apply fold_fillStep_preserves_truthy
      subst hk
      unfold fillStep
      cases hm : objGet m kt.1 with
      | some v =>
        dsimp only
        by_cases htr : jsTruthy v = true
        · rw [if_pos htr]
          exact ⟨v, hm, htr⟩
        · rw [if_neg htr]
          exact ⟨kt.2.defaultValue, objGet_objSet_self m kt.1 _,
            hdef kt (List.mem_cons_self _ _)⟩
      | none =>
        dsimp only
        exact ⟨kt.2.defaultValue, objGet_objSet_self m kt.1 _,
          hdef kt (List.mem_cons_self _ _)⟩
    · rcases List.mem_cons.mp hmem with heq | hmem'
      · exact absurd (congrArg Prod.fst heq).symm hk
      · exact ih (fillStep m kt) hmem'
          (fun kt2 h2 => hdef kt2 (List.mem_cons_of_mem _ h2))

theorem fillStep_lookup_ne (m : Genotype) (kt : String × TraitDef) (k : String)
    (hk : kt.1 ≠ k) : objGet (fillStep m kt) k = objGet m k := by
  unfold fillStep
  cases hm : objGet m kt.1 with
  | some v =>
    by_cases htr : jsTruthy v = true <;>
      simp [htr, objGet_objSet_ne m k kt.1 _ hk]
  | none => simp [objGet_objSet_ne m k kt.1 _ hk]

theorem fillDefaults_unregistered (g : Genotype) (k : String)
    (hk : objGet GENE_TRAITS k = none) :
    objGet (fillDefaults g) k = objGet g k := by
  unfold fillDefaults
  suffices h2 : ∀ (l : List (String × TraitDef)), (∀ kt ∈ l, kt.1 ≠ k) →
      ∀ m, objGet (l.foldl fillStep m) k = objGet m k by
    apply h2
    intro kt hmem he
    rw [← he] at hk
    obtain ⟨v, hv, -⟩ :=
      objGet_isSome_of_mem_keys (List.mem_map_of_mem Prod.fst hmem)
    rw [hv] at hk
    cases hk
  intro l
  induction l with
  | nil => intro _ m; rfl
  | cons kt l' ih =>
    intro hl m
    simp only [List.foldl_cons]
    rw [ih (fun kt2 h2 => hl kt2 (List.mem_cons_of_mem _ h2)) (fillStep m kt),
      fillStep_lookup_ne m kt k (hl kt (List.mem_cons_self _ _))]

theorem parseSegment_unregistered (acc : Genotype) (seg : String) (k : String)
    (hk : objGet GENE_TRAITS k = none)
    (h : ∀ v, objGet acc k = some v → v = .str "00") :
    ∀ v, objGet (parseSegment acc seg) k = some v → v = .str "00" := by
  intro v hv
  simp only [parseSegment] at hv
  cases hreg : objGet GENE_TRAITS ((jsSplit ':' seg).headD "") with
  | none =>
    simp only [hreg] at hv
    by_cases hkk : (jsSplit ':' seg).headD "" = k
    · rw [hkk, objGet_objSet_self] at hv
      exact (Option.some.inj hv).symm
    · rw [objGet_objSet_ne acc k _ _ hkk] at hv
      exact h v hv
  | some t =>
    simp only [hreg] at hv
    have hkk : (jsSplit ':' seg).headD "" ≠ k := by
      intro he
      rw [he, hk] at hreg
      cases hreg
    rw [objGet_objSet_ne acc k _ _ hkk] at hv
    exact h v hv

theorem fold_parseSegment_unregistered (segs : List String) (acc : Genotype)
    (k : String) (hk : objGet GENE_TRAITS k = none)
    (h : ∀ v, objGet acc k = some v → v = .str "00") :
    ∀ v, objGet (segs.foldl parseSegment acc) k = some v → v = .str "00" := by
  induction segs generalizing acc with
  | nil => exact h
  | cons s segs' ih =>
    simp only [List.foldl_cons]
    exact ih _ (parseSegment_unregistered acc s k hk h)

/-- Claim C5 (amended): in every parse result, an unregistered key — when it
is present at all — is mapped to the fallback string `"00"` (so it carries no
payload from the input, but it is retained, not dropped), and every
registered trait key is present with a truthy value. -/
theorem C5_parse_key_discipline (seq : String) (k : String)
    (hk : objGet GENE_TRAITS k = none) :
    (∀ v, objGet (parseGeneSequence seq) k = some v → v = .str "00") ∧
    (∀ k' t, objGet GENE_TRAITS k' = some t →
      ∃ v, objGet (parseGeneSequence seq) k' = some v ∧ jsTruthy v = true) := by
  constructor
  · intro v hv
    unfold parseGeneSequence at hv
    rw [fillDefaults_unregistered _ k hk] at hv
    exact fold_parseSegment_unregistered _ [] k hk
      (by intro v2 h2; simp [objGet] at h2) v hv
  · intro k' t ht
    unfold parseGeneSequence fillDefaults
    exact fold_fillStep_establishes GENE_TRAITS _ k' t (objGet_mem ht)
      (by with_unfolding_all decide)

/-- Witness for C5: the unregistered key "XX" and the registered key "FC" on
the concrete input "XX:AB". -/
theorem C5_parse_key_discipline_witness :
    ∃ v, objGet (parseGeneSequence "XX:AB") "FC" = some v ∧ jsTruthy v = true :=
  (C5_parse_key_discipline "XX:AB" "XX" rfl).2 "FC" FCdef rfl

theorem resolveQual_unrecognized (t : TraitDef) (a b : Char)
    (hblend : (t.blendMap.all fun kb =>
      kb.1.data.all fun c => (objGet t.alleles (String.mk [c])).isSome) = true)
    (hun : objGet t.alleles (String.mk [a]) = none ∨
      objGet t.alleles (String.mk [b]) = none) :
    (a ≠ b →
      resolveQualitative t (.str (String.mk [a, b])) = (firstAlleleDef t).map .allele) ∧
    (a = b → objGet t.alleles (String.mk [a]) = none →
      resolveQualitative t (.str (String.mk [a, b])) = none) := by
  have h0 : jsCharAt (.str (String.mk [a, b])) 0 = some a := rfl
  have h1 : jsCharAt (.str (String.mk [a, b])) 1 = some b := rfl
  constructor
  · intro hab
    simp only [resolveQualitative, h0, h1]
    rw [if_neg (fun he => hab (Option.some.inj he))]
    cases hbl : objGet t.blendMap (sortedPairString (some a) (some b)) with
    | some bl =>
      exfalso
      have hmem2 := objGet_mem hbl
      have hall := List.all_eq_true.mp hblend _ hmem2
      have hdata : (sortedPairString (some a) (some b)).data = [a, b] ∨
          (sortedPairString (some a) (some b)).data = [b, a] := by
        by_cases hle : a ≤ b
        · left; simp [sortedPairString, hle]
        · right; simp [sortedPairString, hle]
      have ha : (objGet t.alleles (String.mk [a])).isSome = true := by
        apply List.all_eq_true.mp hall
        rcases hdata with hd | hd <;> rw [hd] <;> simp
      have hb : (objGet t.alleles (String.mk [b])).isSome = true := by
        apply List.all_eq_true.mp hall
        rcases hdata with hd | hd <;> rw [hd] <;> simp
      rcases hun with h2 | h2
      · rw [h2] at ha
        cases ha
      · rw [h2] at hb
        cases hb
    | none =>
      dsimp only [optCharKey]
      rcases hun with h2 | h2
      · rw [h2]
      · cases h3 : objGet t.alleles (String.mk [a]) with
        | none => rfl
        | some a1 => rw [h2]
  · intro hab hnone
    subst hab
    simp only [resolveQualitative, h0, h1, if_pos rfl]
    dsimp only [optCharKey]
    rw [hnone]
    rfl

/-- Claim C6 (amended): for every qualitative registry trait, when the two
genotype characters differ and either is not a recognized allele, the
resolved phenotype is the first-defined allele of the registry for that
trait; when the two characters are equal and unrecognized, the phenotype
entry is `undefined` (no record at all), not the first-defined allele. -/
theorem C6_unrecognized_allele_fallback (k : String) (t : TraitDef)
    (h : objGet GENE_TRAITS k = some t) (ht : t.type = .qualitative)
    (a b : Char)
    (hun : objGet t.alleles (String.mk [a]) = none ∨
      objGet t.alleles (String.mk [b]) = none) :
    (a ≠ b →
      resolveQualitative t (.str (String.mk [a, b])) = (firstAlleleDef t).map .allele) ∧
    (a = b → objGet t.alleles (String.mk [a]) = none →
      resolveQualitative t (.str (String.mk [a, b])) = none) := by
  have hmem : (k, t) ∈ GENE_TRAITS := objGet_mem h
  simp only [GENE_TRAITS, List.mem_cons, List.not_mem_nil, or_false,
    Prod.mk.injEq] at hmem
  rcases hmem with hc8 | hc8 | hc8 | hc8 | hc8 | hc8 | hc8 | hc8 <;>
    obtain ⟨-, rfl⟩ := hc8
  · exact resolveQual_unrecognized FCdef a b (by decide) hun
  · exact absurd ht (by decide)
  · exact resolveQual_unrecognized LSdef a b (by decide) hun
  · exact absurd ht (by decide)
  · exact absurd ht (by decide)
  · exact absurd ht (by decide)
  · exact absurd ht (by decide)
  · exact absurd ht (by decide)

/-- Witness for C6: the heterozygous pair "ZB" (Z unrecognized) falls back to
Red, and the homozygous pair "ZZ" resolves to no record. -/
theorem C6_unrecognized_allele_fallback_witness :
    ('Z' ≠ 'B' →
      resolveQualitative FCdef (.str (String.mk ['Z', 'B'])) =
        (firstAlleleDef FCdef).map .allele) ∧
    ('Z' = 'B' → objGet FCdef.alleles (String.mk ['Z']) = none →
      resolveQualitative FCdef (.str (String.mk ['Z', 'B'])) = none) :=
  C6_unrecognized_allele_fallback "FC" FCdef rfl rfl 'Z' 'B' (Or.inl rfl)

theorem applyGene_YD_ne (ph : Phenotype) (kv : String × JSVal) (h : kv.1 ≠ "YD") :
    (applyGene ph kv).YD = ph.YD := by
  unfold applyGene
  cases hobj : objGet GENE_TRAITS kv.1 with
  | none => rfl
  | some t =>
    have hmem : (kv.1, t) ∈ GENE_TRAITS := objGet_mem hobj
    simp only [GENE_TRAITS, List.mem_cons, List.not_mem_nil, or_false,
      Prod.mk.injEq] at hmem
    rcases hmem with hc8 | hc8 | hc8 | hc8 | hc8 | hc8 | hc8 | hc8 <;>
      obtain ⟨he, rfl⟩ := hc8 <;>
      first
        | exact absurd he h
        | (rw [he]; rfl)

theorem fold_applyGene_YD_none (l : Genotype) (ph : Phenotype)
    (h : "YD" ∉ l.map Prod.fst) : (l.foldl applyGene ph).YD = ph.YD := by
  induction l generalizing ph with
  | nil => rfl
  | cons kv l' ih =>
    simp only [List.map_cons, List.mem_cons, not_or] at h
    simp only [List.foldl_cons]
    rw [ih _ (by simpa using h.2), applyGene_YD_ne ph kv (fun he => h.1 he.symm)]

theorem fold_applyGene_YD_some (l : Genotype) (ph : Phenotype) (v : JSVal)
    (hobj : objGet l "YD" = some v) (hnd : (l.map Prod.fst).Nodup) :
    (l.foldl applyGene ph).YD = some (quantPhen YDdef v) := by
  induction l generalizing ph with
  | nil => simp [objGet] at hobj
  | cons kv l' ih =>
    obtain ⟨k0, v0⟩ := kv
    simp only [List.foldl_cons]
    by_cases hk : k0 = "YD"
    · subst hk
      have hv : v0 = v := by simpa [objGet] using hobj
      subst hv
      have hhead : "YD" ∉ l'.map Prod.fst :=
        (List.nodup_cons.mp (by simpa using hnd)).1
      rw [fold_applyGene_YD_none l' _ hhead]
      unfold applyGene
      rw [show objGet GENE_TRAITS "YD" = some YDdef from rfl]
      rfl
    · simp only [objGet, if_neg hk] at hobj
      exact ih _ hobj (List.nodup_cons.mp (by simpa using hnd)).2

theorem interactGrowthSize_YD (ph : Phenotype) : (interactGrowthSize ph).YD = ph.YD := by
  unfold interactGrowthSize
  cases hGR : ph.GR <;> cases hSZ : ph.SZ <;> rfl

theorem interactWaterSize_YD (ph : Phenotype) : (interactWaterSize ph).YD = ph.YD := by
  unfold interactWaterSize
  cases hWN : ph.WN <;> cases hSZ : ph.SZ <;> rfl

theorem interactGrowthResistance_YD (ph : Phenotype) :
    (interactGrowthResistance ph).YD = ph.YD := by
  unfold interactGrowthResistance
  cases hGR : ph.GR <;> cases hRS : ph.RS <;> first | rfl | (dsimp only; split <;> rfl)

/-- Claim C7: with c the number of genotype entries whose value is a
2-character string with equal characters, the resolved Yield phenotype's
`effectiveCoinMultiplier` is `coinMultiplier * (1 - (c - 5) * 0.1)` when
c > 5 and `coinMultiplier` unchanged otherwise. -/
theorem C7_inbreeding_depression (genes : Genotype) (v : JSVal)
    (hnd : (genes.map Prod.fst).Nodup) (hyd : objGet genes "YD" = some v) :
    ∃ q, (calculatePhenotype genes).YD = some q ∧
      q.effectiveCoinMultiplier =
        (if homozygousCount genes > 5 then
          q.coinMultiplier.map fun m =>
            m * (1 - ((homozygousCount genes : ℚ) - 5) * 0.1)
        else q.coinMultiplier) := by
  unfold calculatePhenotype calculateTraitInteractions
  have h3 : (interactGrowthResistance (interactWaterSize (interactGrowthSize
      (genes.foldl applyGene {})))).YD = some (quantPhen YDdef v) := by
    rw [interactGrowthResistance_YD, interactWaterSize_YD, interactGrowthSize_YD]
    exact fold_applyGene_YD_some genes {} v hyd hnd
  unfold interactInbreeding
  by_cases hc : homozygousCount genes > inbreedingThreshold
  · rw [if_pos hc]
    simp only [h3]
    refine ⟨_, rfl, ?_⟩
    rw [if_pos (show homozygousCount genes > 5 from hc)]
    with_unfolding_all rfl
  · rw [if_neg hc]
    simp only [h3]
    refine ⟨_, rfl, ?_⟩
    rw [if_neg (show ¬homozygousCount genes > 5 from hc)]

/-- Witness for C7 on a concrete three-gene genotype with Yield "44". -/
theorem C7_inbreeding_depression_witness :
    ∃ q, (calculatePhenotype
        [("YD", .str "44"), ("FC", .str "RB"), ("SZ", .str "33")]).YD = some q ∧
      q.effectiveCoinMultiplier =
        (if homozygousCount
            [("YD", .str "44"), ("FC", .str "RB"), ("SZ", .str "33")] > 5 then
          q.coinMultiplier.map fun m =>
            m * (1 - ((homozygousCount
              [("YD", .str "44"), ("FC", .str "RB"), ("SZ", .str "33")] : ℚ) - 5) * 0.1)
        else q.coinMultiplier) :=
  C7_inbreeding_depression [("YD", .str "44"), ("FC", .str "RB"), ("SZ", .str "33")]
    (.str "44") (by decide) rfl

/-- Claim C9: `crossPlants` returns null and appends nothing to the crossing
history when either parent is absent; every successful cross returns an
offspring and appends exactly one record, leaving every prior history entry
intact in place. -/
theorem C9_cross_history (plantA plantB : Option PlantState)
    (hist : List CrossRecord) (now : ℚ) (r : ℕ → ℚ) (i : ℕ) :
    (plantA = none ∨ plantB = none →
      crossPlants plantA plantB hist now r i = (none, hist, i)) ∧
    (∀ pa pb, plantA = some pa → plantB = some pb →
      (crossPlants plantA plantB hist now r i).1.isSome = true ∧
      (crossPlants plantA plantB hist now r i).2.1.length = hist.length + 1 ∧
      (crossPlants plantA plantB hist now r i).2.1.take hist.length = hist) := by
  constructor
  · intro h
    rcases h with rfl | rfl
    · rfl
    · cases plantA <;> rfl
  · rintro pa pb rfl rfl
    refine ⟨rfl, ?_, ?_⟩
    · show (hist ++ _).length = hist.length + 1
      simp
    · show (hist ++ [_]).take hist.length = hist
      exact List.take_left hist _

/-- Witness for C9: a missing parent appends nothing; a concrete successful
cross appends exactly one record to an empty history. -/
theorem C9_cross_history_witness :
    crossPlants none (some (Plant.create none)) [] 0 (fun _ => 1/3) 0 =
      (none, [], 0) ∧
    ((crossPlants (some (Plant.create none)) (some (Plant.create none)) [] 0
        (fun _ => 1/3) 0).1.isSome = true ∧
      (crossPlants (some (Plant.create none)) (some (Plant.create none)) [] 0
        (fun _ => 1/3) 0).2.1.length = List.length ([] : List CrossRecord) + 1 ∧
      (crossPlants (some (Plant.create none)) (some (Plant.create none)) [] 0
        (fun _ => 1/3) 0).2.1.take (List.length ([] : List CrossRecord)) =
        ([] : List CrossRecord)) :=
  ⟨(C9_cross_history none (some (Plant.create none)) [] 0 (fun _ => 1/3) 0).1
      (Or.inl rfl),
   (C9_cross_history (some (Plant.create none)) (some (Plant.create none)) [] 0
      (fun _ => 1/3) 0).2 (Plant.create none) (Plant.create none) rfl rfl⟩

/-- Claim C2 (counterexample to the default-genotype half): parsing the
serialized default sequence maps Size to the string `"3"`, while the Size
registry default is the number `3`; the two are distinct runtime values
(`===`-unequal), so the parsed genotype does not map every key to the
registry default value itself. -/
theorem C2_default_value_type_mismatch :
    objGet (parseGeneSequence generateDefaultGeneSequence) "SZ" = some (.str "3") ∧
    SZdef.defaultValue = .num 3 ∧
    (JSVal.str "3" : JSVal) ≠ .num 3 := by
  refine ⟨?_, rfl, by decide⟩
  with_unfolding_all rfl

/-- Claim C2 (amended): parsing the serialization of any genotype conforming
to the registry returns that genotype exactly; and parsing the serialized
default gene sequence yields, for every registered trait key, a value that is
JS-loosely-equal (`==`, the equality the spec's round-trip law uses) to the
registry default — the parsed values are the stringifications (`"3"` vs `3`)
of the numeric registry defaults. -/
theorem C2_codec_roundtrip :
    (∀ g : Genotype, Conforming g → parseGeneSequence (toGeneSequence g) = g) ∧
    (GENE_TRAITS.all fun kt =>
      match objGet (parseGeneSequence generateDefaultGeneSequence) kt.1 with
      | some v => jsLooseEq v kt.2.defaultValue
      | none => false) = true := by
  constructor
  · intro g hconf
    obtain ⟨hnd, hcov, hval⟩ := hconf
    have hval' : ∀ kv ∈ g, conformsEntry kv = true := fun kv h2 =>
      List.all_eq_true.mp hval kv h2
    unfold parseGeneSequence toGeneSequence
    have hFC : "FC" ∈ g.map Prod.fst := hcov ("FC", FCdef) (by simp [GENE_TRAITS])
    have hg0 : g ≠ [] := by rintro rfl; simp at hFC
    have hsegs : jsSplit '-' (joinStrings '-'
        (g.map fun kv => kv.1 ++ ":" ++ jsValToString kv.2)) =
        g.map fun kv => kv.1 ++ ":" ++ jsValToString kv.2 := by
      apply jsSplit_joinStrings
      · simpa using hg0
      · intro p hp
        obtain ⟨kv, hkv, rfl⟩ := List.mem_map.mp hp
        have hent := hval' kv hkv
        unfold conformsEntry at hent
        cases hobj : objGet GENE_TRAITS kv.1 with
        | none =>
          simp only [hobj] at hent
          cases hent
        | some t =>
          simp only [hobj] at hent
          obtain ⟨s, hvs, hsc, hsd, -⟩ := validValue_props hobj hent
          rw [hvs]
          rw [show jsValToString (.str s) = s from rfl]
          have hdata : (kv.1 ++ ":" ++ s).data = kv.1.data ++ ':' :: s.data := by
            simp [String.data_append]
          rw [hdata]
          simp only [List.mem_append, List.mem_cons, not_or]
          push_neg
          exact ⟨(registryKey_not_sep hobj).2, by decide, hsd⟩
    rw [hsegs]
    rw [parse_fold_conforming g [] hval' hnd (by simp)]
    rw [List.nil_append]
    apply fillDefaults_id
    intro kt hkt
    obtain ⟨v, hv, hmem⟩ := objGet_isSome_of_mem_keys (hcov kt hkt)
    have hent := hval' (kt.1, v) hmem
    unfold conformsEntry at hent
    cases hobj : objGet GENE_TRAITS kt.1 with
    | none =>
      simp only [hobj] at hent
      cases hent
    | some t =>
      simp only [hobj] at hent
      obtain ⟨s, hvs, -, -, htr⟩ := validValue_props hobj hent
      exact ⟨v, hv, by rw [hvs]; exact htr⟩
  · with_unfolding_all decide

/-- Witness for C2 on the concrete carrot-preset genotype. -/
theorem C2_codec_roundtrip_witness :
    parseGeneSequence (toGeneSequence
      [("FC", .str "RY"), ("SZ", .str "22"), ("LS", .str "33"), ("BP", .str "11"),
       ("GR", .str "12"), ("YD", .str "44"), ("RS", .str "22"), ("WN", .str "22")]) =
      [("FC", .str "RY"), ("SZ", .str "22"), ("LS", .str "33"), ("BP", .str "11"),
       ("GR", .str "12"), ("YD", .str "44"), ("RS", .str "22"), ("WN", .str "22")] :=
  C2_codec_roundtrip.1
    [("FC", .str "RY"), ("SZ", .str "22"), ("LS", .str "33"), ("BP", .str "11"),
     ("GR", .str "12"), ("YD", .str "44"), ("RS", .str "22"), ("WN", .str "22")]
    (by refine ⟨by decide, by decide, by decide⟩)

end PlantGenetics
